import Mathlib

/-!
# Mapty: workout records, form handling and persistence

A shallow embedding of `src/main.js`.  The classes `Workout`, `Running`, `Cycling` and the
methods of `App` are translated to functions over an explicit `World` (the application
object, the form elements, the workout list element, the `workouts` entry of `localStorage`
and the alerts shown).  JavaScript values are kept dynamically typed (`JSVal`), numbers are
IEEE-754 binary64 values (`Number`) and a thrown exception is an `Except.error`.
-/

namespace Mapty

/-! ## JavaScript numbers -/

/-- A JavaScript Number: NaN, the two infinities, negative zero, or a finite value `q`
(positive zero is `fin 0`). -/
inductive Number where
  | nan
  | inf (negative : Bool)
  | negZero
  | fin (q : ℚ)
deriving DecidableEq

/-- Round `N / D` to the nearest natural number, ties to the even one. -/
def roundNearestEven (N D : Nat) : Nat :=
  let n := N / D
  let r := N % D
  if 2 * r < D then n else if D < 2 * r then n + 1 else if n % 2 = 0 then n else n + 1

/-- Number of halvings that bring `n` below 2, with at most `fuel` steps. -/
def log2Fuel : Nat → Nat → Nat
  | 0, _ => 0
  | fuel + 1, n => if n < 2 then 0 else log2Fuel fuel (n / 2) + 1

/-- Position of the leading bit of `n`: the `e` with `2^e ≤ n < 2^(e+1)` for `n > 0`. -/
def ilog2 (n : Nat) : Nat := log2Fuel n n

/-- The integer `e` with `2^e ≤ p / q < 2^(e+1)`, for `p, q > 0`. -/
def floorLog2 (p q : Nat) : Int :=
  let e0 : Int := (ilog2 p : Int) - (ilog2 q : Int)
  if 0 ≤ e0 then
    (if q * 2 ^ e0.toNat ≤ p then e0 else e0 - 1)
  else
    (if q ≤ p * 2 ^ (-e0).toNat then e0 else e0 - 1)

/-- A non-negative rational rounded to binary64 precision (53 significant bits, least
exponent -1074, round to nearest, ties to even); `none` when the rounded value is `2^1024`
or more, which IEEE-754 delivers as an infinity. -/
def roundMagnitude (x : ℚ) : Option ℚ :=
  if x.num ≤ 0 then some 0 else
    let p := x.num.natAbs
    let q := x.den
    let k : Int := max (floorLog2 p q) (-1022) - 52
    let r : ℚ :=
      if 0 ≤ k then mkRat ((roundNearestEven p (q * 2 ^ k.toNat) * 2 ^ k.toNat : Nat) : Int) 1
      else mkRat (roundNearestEven (p * 2 ^ (-k).toNat) q : Nat) (2 ^ (-k).toNat)
    if ((2 ^ 1024 : Nat) : Int) ≤ r.num then none else some r

namespace Number

/-- The Number with the given sign and rounded magnitude. -/
def ofMagnitude (negative : Bool) : Option ℚ → Number
  | none => inf negative
  | some r => if r = 0 then (if negative then negZero else fin 0)
              else fin (if negative then -r else r)

/-- Sign bit of a Number (false for NaN). -/
def isNegative : Number → Bool
  | inf s => s
  | negZero => true
  | fin q => decide (q < 0)
  | nan => false

/-- Whether the Number is `+0` or `-0`. -/
def isZero : Number → Bool
  | negZero => true
  | fin q => decide (q = 0)
  | _ => false

/-- Mathematical value of a finite Number (0 for the others). -/
def value : Number → ℚ
  | fin q => q
  | _ => 0

/-- The builtin `Number.isFinite` applied to a Number. -/
def isFinite : Number → Bool
  | fin _ => true
  | negZero => true
  | _ => false

/-- The operator `a > b` on Numbers; any comparison with NaN is false. -/
def gt : Number → Number → Bool
  | nan, _ => false
  | _, nan => false
  | inf false, inf false => false
  | inf false, _ => true
  | _, inf false => false
  | inf true, _ => false
  | _, inf true => true
  | a, b => decide (b.value < a.value)

/-- The operator `a / b` on Numbers (IEEE-754 binary64 division). -/
def div : Number → Number → Number
  | nan, _ => nan
  | _, nan => nan
  | inf _, inf _ => nan
  | inf s, b => inf (xor s b.isNegative)
  | a, inf s => ofMagnitude (xor a.isNegative s) (some 0)
  | a, b =>
    if b.isZero then (if a.isZero then nan else inf (xor a.isNegative b.isNegative))
    else ofMagnitude (xor a.isNegative b.isNegative) (roundMagnitude (|a.value| / |b.value|))

/-- Strict equality `a === b` on Numbers: NaN differs from itself, the two zeros are equal. -/
def strictEq : Number → Number → Bool
  | nan, _ => false
  | _, nan => false
  | inf s, inf t => s == t
  | inf _, _ => false
  | _, inf _ => false
  | a, b => decide (a.value = b.value)

end Number

/-! ## Conversion of strings to numbers (the unary `+` applied to an input value) -/

/-- The characters `StrWhiteSpaceChar` of ECMA-262 (white space and line terminators). -/
def isStrWhiteSpaceChar (c : Char) : Bool :=
  c.val = 0x9 || c.val = 0xA || c.val = 0xB || c.val = 0xC || c.val = 0xD || c.val = 0x20 ||
  c.val = 0xA0 || c.val = 0x1680 || (0x2000 ≤ c.val && c.val ≤ 0x200A) || c.val = 0x2028 ||
  c.val = 0x2029 || c.val = 0x202F || c.val = 0x205F || c.val = 0x3000 || c.val = 0xFEFF

/-- Strip leading and trailing white space. -/
def trimWhiteSpace (cs : List Char) : List Char :=
  ((cs.dropWhile isStrWhiteSpaceChar).reverse.dropWhile isStrWhiteSpaceChar).reverse

/-- Value of a digit in the given radix, if it is one. -/
def digitValue (radix : Nat) (c : Char) : Option Nat :=
  let v : Option Nat :=
    if 48 ≤ c.toNat ∧ c.toNat ≤ 57 then some (c.toNat - 48)
    else if 97 ≤ c.toNat ∧ c.toNat ≤ 102 then some (c.toNat - 87)
    else if 65 ≤ c.toNat ∧ c.toNat ≤ 70 then some (c.toNat - 55)
    else none
  match v with
  | some d => if d < radix then some d else none
  | none => none

/-- Split off the longest run of leading digits; returns their count, their value and the
rest of the input. -/
def takeDigits (radix : Nat) : List Char → Nat → Nat → Nat × Nat × List Char
  | [], count, acc => (count, acc, [])
  | c :: cs, count, acc =>
    match digitValue radix c with
    | some d => takeDigits radix cs (count + 1) (acc * radix + d)
    | none => (count, acc, c :: cs)

/-- An optional `ExponentPart` that must reach the end of the input; `none` if the remaining
text is not one. -/
def parseExponent : List Char → Option Int
  | [] => some 0
  | c :: cs =>
    if c = 'e' ∨ c = 'E' then
      let (negative, ds) : Bool × List Char :=
        match cs with
        | '+' :: ds => (false, ds)
        | '-' :: ds => (true, ds)
        | ds => (false, ds)
      match takeDigits 10 ds 0 0 with
      | (count, v, []) =>
        if count = 0 then none else some (if negative then -(v : Int) else (v : Int))
      | _ => none
    else none

/-- The mathematical value of a `StrUnsignedDecimalLiteral` other than `Infinity`. -/
def parseUnsignedDecimal (cs : List Char) : Option ℚ :=
  match takeDigits 10 cs 0 0 with
  | (ni, vi, rest) =>
    let frac : Nat × Nat × List Char :=
      match rest with
      | '.' :: rest1 => takeDigits 10 rest1 0 vi
      | _ => (0, vi, rest)
    let hasDot : Bool := match rest with
      | '.' :: _ => true
      | _ => false
    match frac with
    | (nf, v, rest2) =>
      if ni + nf = 0 then none
      else if ni = 0 ∧ hasDot = false then none
      else
        match parseExponent rest2 with
        | none => none
        | some e =>
          let ex : Int := e - (nf : Int)
          some (if 0 ≤ ex then mkRat ((v * 10 ^ ex.toNat : Nat) : Int) 1
                else mkRat (v : Int) (10 ^ (-ex).toNat))

/-- A `NonDecimalIntegerLiteral` body: at least one digit of the radix, up to the end. -/
def parseRadixDigits (radix : Nat) (cs : List Char) : Option ℚ :=
  match takeDigits radix cs 0 0 with
  | (count, v, []) => if count = 0 then none else some (mkRat (v : Int) 1)
  | _ => none

/-- The abstract operation `StringToNumber` of ECMA-262 on the characters of a string. -/
def stringToNumberChars (cs : List Char) : Number :=
  match trimWhiteSpace cs with
  | [] => Number.fin 0
  | '0' :: 'x' :: ds | '0' :: 'X' :: ds =>
    match parseRadixDigits 16 ds with
    | some m => Number.ofMagnitude false (roundMagnitude m)
    | none => Number.nan
  | '0' :: 'o' :: ds | '0' :: 'O' :: ds =>
    match parseRadixDigits 8 ds with
    | some m => Number.ofMagnitude false (roundMagnitude m)
    | none => Number.nan
  | '0' :: 'b' :: ds | '0' :: 'B' :: ds =>
    match parseRadixDigits 2 ds with
    | some m => Number.ofMagnitude false (roundMagnitude m)
    | none => Number.nan
  | c :: cs1 =>
    let negative : Bool := decide (c = '-')
    let body : List Char := if c = '+' ∨ c = '-' then cs1 else c :: cs1
    if body = "Infinity".toList then Number.inf negative
    else
      match parseUnsignedDecimal body with
      | some m => Number.ofMagnitude negative (roundMagnitude m)
      | none => Number.nan

/-- The unary `+` applied to a string, as in `+inputDistance.value`. -/
def toNumber (s : String) : Number := stringToNumberChars s.toList

/-! ## JavaScript values and exceptions -/

/-- The exceptions this program can raise. -/
inductive JSError where
  | TypeError
  | SyntaxError
deriving DecidableEq

deriving instance DecidableEq for Except

/-- A JavaScript value.  `date t` is a Date object with time value `t` (milliseconds since
the epoch); `obj` lists the own enumerable properties of an object in enumeration order, which
is all this program observes of its `Running` and `Cycling` instances once they are built. -/
inductive JSVal where
  | undefined
  | null
  | bool (b : Bool)
  | num (n : Number)
  | str (s : String)
  | date (t : Int)
  | arr (items : List JSVal)
  | obj (props : List (String × JSVal))

mutual
/-- Decision procedure for equality of values. -/
def JSVal.decEq : (a b : JSVal) → Decidable (a = b)
  | .undefined, .undefined => isTrue rfl
  | .null, .null => isTrue rfl
  | .bool a, .bool b =>
    if h : a = b then isTrue (by rw [h]) else isFalse (by intro e; cases e; exact h rfl)
  | .num a, .num b =>
    if h : a = b then isTrue (by rw [h]) else isFalse (by intro e; cases e; exact h rfl)
  | .str a, .str b =>
    if h : a = b then isTrue (by rw [h]) else isFalse (by intro e; cases e; exact h rfl)
  | .date a, .date b =>
    if h : a = b then isTrue (by rw [h]) else isFalse (by intro e; cases e; exact h rfl)
  | .arr a, .arr b =>
    match JSVal.decEqList a b with
    | isTrue h => isTrue (by rw [h])
    | isFalse h => isFalse (by intro e; cases e; exact h rfl)
  | .obj a, .obj b =>
    match JSVal.decEqProps a b with
    | isTrue h => isTrue (by rw [h])
    | isFalse h => isFalse (by intro e; cases e; exact h rfl)
  | .undefined, .null | .undefined, .bool _ | .undefined, .num _ | .undefined, .str _
  | .undefined, .date _ | .undefined, .arr _ | .undefined, .obj _ =>
    isFalse (by intro e; cases e)
  | .null, .undefined | .null, .bool _ | .null, .num _ | .null, .str _
  | .null, .date _ | .null, .arr _ | .null, .obj _ =>
    isFalse (by intro e; cases e)
  | .bool _, .undefined | .bool _, .null | .bool _, .num _ | .bool _, .str _
  | .bool _, .date _ | .bool _, .arr _ | .bool _, .obj _ =>
    isFalse (by intro e; cases e)
  | .num _, .undefined | .num _, .null | .num _, .bool _ | .num _, .str _
  | .num _, .date _ | .num _, .arr _ | .num _, .obj _ =>
    isFalse (by intro e; cases e)
  | .str _, .undefined | .str _, .null | .str _, .bool _ | .str _, .num _
  | .str _, .date _ | .str _, .arr _ | .str _, .obj _ =>
    isFalse (by intro e; cases e)
  | .date _, .undefined | .date _, .null | .date _, .bool _ | .date _, .num _
  | .date _, .str _ | .date _, .arr _ | .date _, .obj _ =>
    isFalse (by intro e; cases e)
  | .arr _, .undefined | .arr _, .null | .arr _, .bool _ | .arr _, .num _
  | .arr _, .str _ | .arr _, .date _ | .arr _, .obj _ =>
    isFalse (by intro e; cases e)
  | .obj _, .undefined | .obj _, .null | .obj _, .bool _ | .obj _, .num _
  | .obj _, .str _ | .obj _, .date _ | .obj _, .arr _ =>
    isFalse (by intro e; cases e)
/-- Decision procedure for equality of lists of values. -/
def JSVal.decEqList : (a b : List JSVal) → Decidable (a = b)
  | [], [] => isTrue rfl
  | [], _ :: _ => isFalse (by intro e; cases e)
  | _ :: _, [] => isFalse (by intro e; cases e)
  | x :: xs, y :: ys =>
    match JSVal.decEq x y, JSVal.decEqList xs ys with
    | isTrue h1, isTrue h2 => isTrue (by rw [h1, h2])
    | isFalse h, _ => isFalse (by intro e; cases e; exact h rfl)
    | _, isFalse h => isFalse (by intro e; cases e; exact h rfl)
/-- Decision procedure for equality of property lists. -/
def JSVal.decEqProps : (a b : List (String × JSVal)) → Decidable (a = b)
  | [], [] => isTrue rfl
  | [], _ :: _ => isFalse (by intro e; cases e)
  | _ :: _, [] => isFalse (by intro e; cases e)
  | (k, x) :: xs, (l, y) :: ys =>
    if hk : k = l then
      match JSVal.decEq x y, JSVal.decEqProps xs ys with
      | isTrue h1, isTrue h2 => isTrue (by rw [hk, h1, h2])
      | isFalse h, _ => isFalse (by intro e; cases e; exact h rfl)
      | _, isFalse h => isFalse (by intro e; cases e; exact h rfl)
    else isFalse (by intro e; cases e; exact hk rfl)
end

instance : DecidableEq JSVal := JSVal.decEq

/-- Look a key up in a property list; a missing property reads as `undefined`. -/
def lookupProp (k : String) : List (String × JSVal) → JSVal
  | [] => .undefined
  | (l, v) :: rest => if l = k then v else lookupProp k rest

/-- The property read `v.k` for the property names this program reads (`id`, `type`,
`coords`, `pace`, ...): a TypeError on `undefined` and `null`, the own property on an object,
and `undefined` on every other value (none of their prototypes defines these names). -/
def getProp (v : JSVal) (k : String) : Except JSError JSVal :=
  match v with
  | .undefined => .error .TypeError
  | .null => .error .TypeError
  | .obj props => .ok (lookupProp k props)
  | _ => .ok .undefined

/-- The property read `v.k` on a value already known not to be `undefined` or `null`. -/
def lookupPropOf (v : JSVal) (k : String) : JSVal :=
  match v with
  | .obj props => lookupProp k props
  | _ => .undefined

/-- The conversion `ToBoolean`, as used by `!data`. -/
def toBoolean : JSVal → Bool
  | .undefined => false
  | .null => false
  | .bool b => b
  | .num n => !(n.isZero || decide (n = Number.nan))
  | .str s => decide (s ≠ "")
  | _ => true

/-- Strict equality `v === s` of a value with a string. -/
def strictEqString (v : JSVal) (s : String) : Bool :=
  match v with
  | .str t => decide (t = s)
  | _ => false

/-! ## Decimal strings and dates (ECMA-262, "Time Values and Time Range") -/

/-- Decimal digits of `n`, least significant first, with at most `fuel` digits. -/
def decimalDigits : Nat → Nat → List Char
  | 0, _ => []
  | fuel + 1, n =>
    if n < 10 then [Char.ofNat (48 + n)]
    else Char.ofNat (48 + n % 10) :: decimalDigits fuel (n / 10)

/-- The decimal string of a natural number. -/
def natToString (n : Nat) : String := String.mk (decimalDigits (n + 1) n).reverse

/-- The method `toString()` of an integral Number, applied to `Date.now()`. -/
def intToString (t : Int) : String :=
  if 0 ≤ t then natToString t.toNat else "-" ++ natToString (-t).toNat

/-- The method `s.slice(-k)`: the last `k` characters, or all of `s` if it is shorter. -/
def sliceLast (k : Nat) (s : String) : String := String.mk (s.toList.drop (s.toList.length - k))

/-- Left-pad the decimal string of `n` with zeros to the given width. -/
def padZero (width n : Nat) : String :=
  String.mk (List.replicate (width - (natToString n).toList.length) '0') ++ natToString n

/-- Milliseconds in a day. -/
def msPerDay : Int := 86400000

/-- Day number of a time value. -/
def Day (t : Int) : Int := t / msPerDay

/-- Milliseconds elapsed within the day. -/
def TimeWithinDay (t : Int) : Int := t % msPerDay

/-- Number of days in year `y`. -/
def DaysInYear (y : Int) : Int :=
  if y % 4 ≠ 0 then 365 else if y % 100 ≠ 0 then 366 else if y % 400 ≠ 0 then 365 else 366

/-- Day number of the first day of year `y`. -/
def DayFromYear (y : Int) : Int :=
  365 * (y - 1970) + (y - 1969) / 4 - (y - 1901) / 100 + (y - 1601) / 400

/-- The year a time value falls in: the largest `y` whose first day is not after it.  The
estimate from the mean year length is off by at most one year and is adjusted. -/
def YearFromTime (t : Int) : Int :=
  let d := Day t
  let y := 1970 + d * 400 / 146097
  if d < DayFromYear y then y - 1 else if DayFromYear (y + 1) ≤ d then y + 1 else y

/-- Is 1 in a leap year and 0 otherwise. -/
def InLeapYear (t : Int) : Int := if DaysInYear (YearFromTime t) = 366 then 1 else 0

/-- Day number within the year, from 0. -/
def DayWithinYear (t : Int) : Int := Day t - DayFromYear (YearFromTime t)

/-- Month number of a time value, 0 for January. -/
def MonthFromTime (t : Int) : Nat :=
  let d := DayWithinYear t
  let leap := InLeapYear t
  if d < 31 then 0
  else if d < 59 + leap then 1
  else if d < 90 + leap then 2
  else if d < 120 + leap then 3
  else if d < 151 + leap then 4
  else if d < 181 + leap then 5
  else if d < 212 + leap then 6
  else if d < 243 + leap then 7
  else if d < 273 + leap then 8
  else if d < 304 + leap then 9
  else if d < 334 + leap then 10
  else 11

/-- Day of the month of a time value, from 1. -/
def DateFromTime (t : Int) : Int :=
  let d := DayWithinYear t
  let leap := InLeapYear t
  match MonthFromTime t with
  | 0 => d + 1
  | 1 => d - 30
  | 2 => d - 58 - leap
  | 3 => d - 89 - leap
  | 4 => d - 119 - leap
  | 5 => d - 150 - leap
  | 6 => d - 180 - leap
  | 7 => d - 211 - leap
  | 8 => d - 242 - leap
  | 9 => d - 272 - leap
  | 10 => d - 303 - leap
  | _ => d - 333 - leap

/-- The method `toISOString()` of a Date with time value `t` (always in UTC). -/
def toISOString (t : Int) : String :=
  let y := YearFromTime t
  let year : String :=
    if 0 ≤ y ∧ y ≤ 9999 then padZero 4 y.toNat
    else if 0 ≤ y then "+" ++ padZero 6 y.toNat
    else "-" ++ padZero 6 (-y).toNat
  let w := TimeWithinDay t
  year ++ "-" ++ padZero 2 (MonthFromTime t + 1) ++ "-" ++ padZero 2 (DateFromTime t).toNat ++
    "T" ++ padZero 2 (w / 3600000).toNat ++ ":" ++ padZero 2 (w / 60000 % 60).toNat ++ ":" ++
    padZero 2 (w / 1000 % 60).toNat ++ "." ++ padZero 3 (w % 1000).toNat ++ "Z"

/-- What the host supplies when a record is constructed: the two clock readings taken by the
field initialisers `id = Date.now()...` and `date = new Date()`, and the offset of local time
from UTC (in milliseconds) at a given instant. -/
structure Env where
  now : Int
  dateNow : Int
  localTZA : Int → Int

/-- The method `getMonth()`: month of the local time, 0 for January. -/
def getMonth (env : Env) (t : Int) : Nat := MonthFromTime (t + env.localTZA t)

/-- The method `getDate()`: day of the month of the local time. -/
def getDate (env : Env) (t : Int) : Int := DateFromTime (t + env.localTZA t)

/-! ## The classes `Workout`, `Running` and `Cycling` -/

/-- The fields set by the field initialisers and the constructor of `Workout`. -/
structure WorkoutFields where
  id : String
  date : Int
  coords : JSVal
  distance : Number
  duration : Number

/-- The constructor `Workout(distance, duration, coords)` with its field initialisers
`id = (Date.now().toString()).slice(-10)` and `date = new Date()`. -/
def Workout (env : Env) (distance duration : Number) (coords : JSVal) : WorkoutFields :=
  { id := sliceLast 10 (intToString env.now)
    date := env.dateNow
    coords := coords
    distance := distance
    duration := duration }

/-- The table `months` of `_setDescription`. -/
def months : List String :=
  ["January", "February", "March", "April", "May", "June", "July", "August", "September",
   "October", "November", "December"]

/-- The expression `type[0].toUpperCase() + type.slice(1)`, for the ASCII class names it is
applied to. -/
def capitalizeFirst (type : String) : String :=
  match type.toList with
  | [] => ""
  | c :: rest => String.mk (c.toUpper :: rest)

/-- The method `_setDescription()`: the value it stores in `this.description`.  An index
outside the table would read `undefined`. -/
def _setDescription (env : Env) (type : String) (date : Int) : String :=
  capitalizeFirst type ++ " on " ++ months.getD (getMonth env date) "undefined" ++ " " ++
    intToString (getDate env date)

/-- The method `calcPace()` (min/km). -/
def calcPace (this : WorkoutFields) : Number := this.duration.div this.distance

/-- The method `calcSpeed()` (km/h). -/
def calcSpeed (this : WorkoutFields) : Number :=
  this.distance.div (this.duration.div (Number.fin 60))

/-- The constructor `new Running(coords, distance, duration, cadence)`: the instance, with
its own properties in creation order. -/
def Running (env : Env) (coords : JSVal) (distance duration cadence : Number) : JSVal :=
  let this := Workout env distance duration coords
  let type := "running"
  .obj [("id", .str this.id), ("date", .date this.date), ("coords", this.coords),
        ("distance", .num this.distance), ("duration", .num this.duration),
        ("type", .str type), ("cadence", .num cadence), ("pace", .num (calcPace this)),
        ("description", .str (_setDescription env type this.date))]

/-- The constructor `new Cycling(coords, distance, duration, elevationGain)`. -/
def Cycling (env : Env) (coords : JSVal) (distance duration elevationGain : Number) : JSVal :=
  let this := Workout env distance duration coords
  let type := "cycling"
  .obj [("id", .str this.id), ("date", .date this.date), ("coords", this.coords),
        ("distance", .num this.distance), ("duration", .num this.duration),
        ("type", .str type), ("elevationGain", .num elevationGain),
        ("speed", .num (calcSpeed this)),
        ("description", .str (_setDescription env type this.date))]

/-! ## JSON and `localStorage` -/

/-- A text kept in `localStorage`, classified by what `JSON.parse` makes of it: a
SyntaxError (`malformed`) or the value it denotes.  The program hands the stored text to
`JSON.parse` and to nothing else, so texts that parse alike need not be told apart. -/
inductive StoredText where
  | malformed
  | json (v : JSVal)
deriving DecidableEq

/-- What a number reads back as after `JSON.stringify` and `JSON.parse`: itself when it is
finite, except that negative zero is written `0`, and `null` when it is not finite. -/
def jsonNumber (n : Number) : JSVal :=
  if n.isFinite then (if n = Number.negZero then .num (Number.fin 0) else .num n) else .null

mutual
/-- The value denoted by the text `JSON.stringify` produces for a value; `none` where
`JSON.stringify` yields `undefined`.  A Date is written as its ISO string (`toJSON`), a
non-finite number as `null`, negative zero as `0`; an `undefined` array element becomes
`null` and an `undefined` property is left out. -/
def serialize : JSVal → Option JSVal
  | .undefined => none
  | .null => some .null
  | .bool b => some (.bool b)
  | .num n => some (jsonNumber n)
  | .str s => some (.str s)
  | .date t => some (.str (toISOString t))
  | .arr items => some (.arr (serializeItems items))
  | .obj props => some (.obj (serializeProps props))
/-- The elements of a serialized array. -/
def serializeItems : List JSVal → List JSVal
  | [] => []
  | x :: xs => (serialize x).getD .null :: serializeItems xs
/-- The properties of a serialized object. -/
def serializeProps : List (String × JSVal) → List (String × JSVal)
  | [] => []
  | (k, x) :: rest =>
    match serialize x with
    | some y => (k, y) :: serializeProps rest
    | none => serializeProps rest
end

/-- The text `JSON.stringify(v)` as stored by `setItem`; `undefined` would be stored as the
text `undefined`, which is not JSON. -/
def JSON.stringify (v : JSVal) : StoredText :=
  match serialize v with
  | some j => .json j
  | none => .malformed

/-- The call `JSON.parse(localStorage.getItem(key))` on the entry of the key: an absent entry
reads as `null`, whose text `null` parses to `null`. -/
def JSON.parse : Option StoredText → Except JSError JSVal
  | none => .ok .null
  | some .malformed => .error .SyntaxError
  | some (.json v) => .ok v

/-! ## The application and the page around it -/

/-- The `latlng` of a map click event. -/
structure LatLng where
  lat : Number
  lng : Number
deriving DecidableEq

/-- A marker added to the map, with what is interpolated into its popup: the position given
to `L.marker`, the `className` option, the outcome of the icon test
`workout.type === 'running'` and the description.  The values are kept as they are read from
the record; their conversion to text is left to the page. -/
structure Marker where
  coords : JSVal
  className : JSVal
  running : Bool
  description : JSVal
deriving DecidableEq

/-- The Leaflet map behind `#map`, as a log of what the program asked of it: the `setView`
requests (centre and zoom), latest last, and the markers added.  Leaflet itself is outside
the program; a request is recorded whatever position it carries. -/
structure LeafletMap where
  views : List (JSVal × Number)
  markers : List Marker
deriving DecidableEq

/-- The private fields of `App`; an unset `#map` or `#mapEvent` is `none`.  The field
`#mapZoomLevel` is never assigned after its initialiser and is the constant `mapZoomLevel`. -/
structure App where
  map : Option LeafletMap
  mapEvent : Option LatLng
  workouts : JSVal
deriving DecidableEq

/-- The initialiser of `#mapZoomLevel`. -/
def mapZoomLevel : Number := Number.fin 12

/-- The form element: whether it carries the class `hidden`, and the `value` of each input. -/
structure Form where
  hidden : Bool
  inputType : String
  inputDistance : String
  inputDuration : String
  inputCadence : String
  inputElevation : String
deriving DecidableEq

/-- A list item inserted by `_renderWorkout`, with the values interpolated into its
template: `type`, `id`, `description`, `distance`, `duration`, the number `toFixed(1)` is
called on (pace or speed) and the last detail (cadence or elevation gain). -/
structure ListItem where
  type : JSVal
  id : JSVal
  description : JSVal
  distance : JSVal
  duration : JSVal
  metric : Number
  extra : JSVal
deriving DecidableEq

/-- Everything the handlers read and write: the application object, the form, the children
of the list element `.workouts`, the entry `workouts` of `localStorage` (`none` when absent)
and the messages shown with `alert`.  Writing the entry always succeeds (no storage
quota). -/
structure World where
  app : App
  form : Form
  containerWorkouts : List ListItem
  localStorage : Option StoredText
  alerts : List String
deriving DecidableEq

/-- How a handler ends: the world it leaves, and the exception it threw, if any. -/
structure Outcome where
  world : World
  thrown : Option JSError
deriving DecidableEq

/-- Normal completion. -/
def Outcome.done (w : World) : Outcome := { world := w, thrown := none }

/-- Abrupt completion with an exception. -/
def Outcome.throw (w : World) (e : JSError) : Outcome := { world := w, thrown := some e }

/-- Sequencing: the next statement runs only if nothing was thrown. -/
def Outcome.andThen (o : Outcome) (next : World → Outcome) : Outcome :=
  match o.thrown with
  | some _ => o
  | none => next o.world

/-- The method `_hideForm()`. -/
def _hideForm (w : World) : World :=
  { w with form := { w.form with hidden := true } }

/-- The method `_clearForm()`. -/
def _clearForm (w : World) : World :=
  _hideForm { w with form := { w.form with inputDistance := "", inputCadence := "",
                                           inputElevation := "", inputDuration := "" } }

/-- The method `_showForm(e)`, the click handler of the map. -/
def _showForm (e : LatLng) (w : World) : World :=
  { w with app := { w.app with mapEvent := some e }, form := { w.form with hidden := false } }

/-- The method `_renderWorkoutMarker(workout)`.  Reading `workout.coords` throws on
`undefined` or `null`; adding the marker to an unset `#map` throws inside `addTo`. -/
def _renderWorkoutMarker (workout : JSVal) (w : World) : Outcome :=
  match getProp workout "coords" with
  | .error e => Outcome.throw w e
  | .ok coords =>
    match w.app.map with
    | none => Outcome.throw w .TypeError
    | some m =>
      let type := lookupPropOf workout "type"
      let marker : Marker :=
        { coords := coords, className := type, running := strictEqString type "running",
          description := lookupPropOf workout "description" }
      Outcome.done (_clearForm
        { w with app := { w.app with map := some { m with markers := m.markers ++ [marker] } } })

/-- The receiver of the call `x.toFixed(1)`: a TypeError unless `x` is a number (the method
is missing on every other value, and the property read itself throws on `undefined` and
`null`). -/
def toFixedOperand : JSVal → Except JSError Number
  | .num n => .ok n
  | _ => .error .TypeError

/-- The method `_renderWorkout(workout)`: the item appended to the list element.  The first
interpolation, `workout.type`, throws when `workout` is `undefined` or `null`; the later
property reads cannot throw; `toFixed` throws unless the metric is a number. -/
def _renderWorkout (workout : JSVal) (w : World) : Outcome :=
  match getProp workout "type" with
  | .error e => Outcome.throw w e
  | .ok type =>
    let item (metric : Number) (extra : JSVal) : ListItem :=
      { type := type, id := lookupPropOf workout "id",
        description := lookupPropOf workout "description",
        distance := lookupPropOf workout "distance",
        duration := lookupPropOf workout "duration", metric := metric, extra := extra }
    if strictEqString type "running" then
      match toFixedOperand (lookupPropOf workout "pace") with
      | .error e => Outcome.throw w e
      | .ok pace =>
        Outcome.done { w with containerWorkouts :=
          w.containerWorkouts ++ [item pace (lookupPropOf workout "cadence")] }
    else
      match toFixedOperand (lookupPropOf workout "speed") with
      | .error e => Outcome.throw w e
      | .ok speed =>
        Outcome.done { w with containerWorkouts :=
          w.containerWorkouts ++ [item speed (lookupPropOf workout "elevationGain")] }

/-- The method `_setLocalStorage()`. -/
def _setLocalStorage (w : World) : World :=
  { w with localStorage := some (JSON.stringify w.app.workouts) }

/-- The loop `items.forEach(f)` with early exit when `f` throws. -/
def forEachOutcome (f : JSVal → World → Outcome) : List JSVal → World → Outcome
  | [], w => Outcome.done w
  | x :: xs, w => (f x w).andThen (forEachOutcome f xs)

/-- The call `this.#workouts.forEach(f)`: a TypeError when the store is not an array. -/
def forEachWorkout (f : JSVal → World → Outcome) (w : World) : Outcome :=
  match w.app.workouts with
  | .arr items => forEachOutcome f items w
  | _ => Outcome.throw w .TypeError

/-- The method `_getLocalStorage()`. -/
def _getLocalStorage (w : World) : Outcome :=
  match JSON.parse w.localStorage with
  | .error e => Outcome.throw w e
  | .ok data =>
    if !toBoolean data then Outcome.done w
    else forEachWorkout _renderWorkout { w with app := { w.app with workouts := data } }

/-- The method `_loadMap(e)`, the success callback of the position request. -/
def _loadMap (latitude longitude : Number) (w : World) : Outcome :=
  let coords : JSVal := .arr [.num latitude, .num longitude]
  let m : LeafletMap := { views := [(coords, mapZoomLevel)], markers := [] }
  forEachWorkout _renderWorkoutMarker { w with app := { w.app with map := some m } }

/-- The test `validInputs(...inputs)`. -/
def validInputs (inputs : List Number) : Bool := inputs.all (fun inp => inp.isFinite)

/-- The test `allPositive(...inputs)`. -/
def allPositive (inputs : List Number) : Bool := inputs.all (fun inp => inp.gt (Number.fin 0))

/-- The message of the validation alert. -/
def alertMessage : String := "Inputs must be positive numbers!"

/-- The tail of `_newWorkout`: push, render marker, render list item, persist. -/
def storeAndRender (workout : JSVal) (w : World) : Outcome :=
  match w.app.workouts with
  | .arr items =>
    let w1 : World := { w with app := { w.app with workouts := .arr (items ++ [workout]) } }
    ((_renderWorkoutMarker workout w1).andThen (_renderWorkout workout)).andThen
      (fun w3 => Outcome.done (_setLocalStorage w3))
  | _ => Outcome.throw w .TypeError

/-- The method `_newWorkout(e)`, the submit handler of the form.  Reading
`this.#mapEvent.latlng` throws when no map click has been recorded; `e.preventDefault()` has
no effect on the world; a record is constructed, with the clock readings of `env`, only after
the validation of its kind has passed. -/
def _newWorkout (env : Env) (w : World) : Outcome :=
  match w.app.mapEvent with
  | none => Outcome.throw w .TypeError
  | some latlng =>
    let coords : JSVal := .arr [.num latlng.lat, .num latlng.lng]
    let type := w.form.inputType
    let distance := toNumber w.form.inputDistance
    let duration := toNumber w.form.inputDuration
    if type = "running" then
      let cadence := toNumber w.form.inputCadence
      if !validInputs [distance, duration, cadence] || !allPositive [distance, duration, cadence]
      then Outcome.done { w with alerts := w.alerts ++ [alertMessage] }
      else storeAndRender (Running env coords distance duration cadence) w
    else if type = "cycling" then
      let elevation := toNumber w.form.inputElevation
      if !validInputs [distance, duration, elevation] || !allPositive [distance, duration]
      then Outcome.done { w with alerts := w.alerts ++ [alertMessage] }
      else storeAndRender (Cycling env coords distance duration elevation) w
    else storeAndRender .undefined w

/-- The callback of `find` in `_moveToPosition`: `work => work.id === id`. -/
def matchesId (id : String) (work : JSVal) : Except JSError Bool :=
  match getProp work "id" with
  | .error e => .error e
  | .ok v => .ok (strictEqString v id)

/-- The method `find` of an array with that callback: the first match, or `undefined`. -/
def findById (id : String) : List JSVal → Except JSError JSVal
  | [] => .ok .undefined
  | work :: rest =>
    match matchesId id work with
    | .error e => .error e
    | .ok true => .ok work
    | .ok false => findById id rest

/-- The method `_moveToPosition(e)`, the click handler of the list element; `clicked` is the
`data-id` of the closest enclosing list item of the click target, `none` if there is none.
In `this.#map.setView(workout.coords, ...)` the method is looked up on `#map` before the
argument `workout.coords` is evaluated; either read throws on `undefined`. -/
def _moveToPosition (clicked : Option String) (w : World) : Outcome :=
  match clicked with
  | none => Outcome.done w
  | some id =>
    match w.app.workouts with
    | .arr items =>
      match findById id items with
      | .error e => Outcome.throw w e
      | .ok workout =>
        match w.app.map with
        | none => Outcome.throw w .TypeError
        | some m =>
          match getProp workout "coords" with
          | .error e => Outcome.throw w e
          | .ok coords =>
            Outcome.done { w with app := { w.app with
              map := some { m with views := m.views ++ [(coords, mapZoomLevel)] } } }
    | _ => Outcome.throw w .TypeError

/-- The method `reset()`: the entry is removed and the page reloads. -/
def reset (w : World) : World := { w with localStorage := none }

/-! ## Predicates used in the statements -/

/-- A submitted number fails validation: it is non-finite or not greater than 0. -/
def Invalid (x : Number) : Prop := x.isFinite = false ∨ x.gt (Number.fin 0) = false

/-- A submitted number passes validation: it is finite and greater than 0. -/
def Valid (x : Number) : Prop := x.isFinite = true ∧ x.gt (Number.fin 0) = true

/-- The world after a rejected submission: only the alert has been shown. -/
def rejected (w : World) : World := { w with alerts := w.alerts ++ [alertMessage] }

/-- The form is open for the map click `C`: it is shown, the click is recorded in
`#mapEvent`, and the map that delivered the click exists. -/
def AwaitingSubmission (w : World) (C : LatLng) : Prop :=
  w.form.hidden = false ∧ w.app.mapEvent = some C ∧ w.app.map ≠ none

/-- The inputs of the form pass the validation of the selected kind. -/
def ValidSubmission (f : Form) : Prop :=
  (f.inputType = "running" ∧ Valid (toNumber f.inputDistance) ∧
    Valid (toNumber f.inputDuration) ∧ Valid (toNumber f.inputCadence)) ∨
  (f.inputType = "cycling" ∧ Valid (toNumber f.inputDistance) ∧
    Valid (toNumber f.inputDuration) ∧ (toNumber f.inputElevation).isFinite = true)

/-- A record made by a successful construction: a call of `Running` or `Cycling` at a map
click, with arguments that pass the validation of `_newWorkout`. -/
inductive IsBuilt : JSVal → Prop
  | running (env : Env) (C : LatLng) (distance duration cadence : Number) :
    Valid distance → Valid duration → Valid cadence →
    IsBuilt (Running env (.arr [.num C.lat, .num C.lng]) distance duration cadence)
  | cycling (env : Env) (C : LatLng) (distance duration elevationGain : Number) :
    Valid distance → Valid duration → elevationGain.isFinite = true →
    IsBuilt (Cycling env (.arr [.num C.lat, .num C.lng]) distance duration elevationGain)

/-- How a record `r2` read back from storage relates to the record `r` that was stored: the
properties `id`, `distance`, `duration`, `type`, `cadence` and `description` are the same; the
Date in `date` comes back as its ISO string; the two coordinates, `elevationGain`, `pace` and
`speed` come back as `jsonNumber` of the stored number. -/
def ReadBack (r r2 : JSVal) : Prop :=
  getProp r2 "id" = getProp r "id" ∧
  getProp r2 "distance" = getProp r "distance" ∧
  getProp r2 "duration" = getProp r "duration" ∧
  getProp r2 "type" = getProp r "type" ∧
  getProp r2 "cadence" = getProp r "cadence" ∧
  getProp r2 "description" = getProp r "description" ∧
  (∀ t, getProp r "date" = .ok (.date t) → getProp r2 "date" = .ok (.str (toISOString t))) ∧
  (∀ lat lng, getProp r "coords" = .ok (.arr [.num lat, .num lng]) →
    getProp r2 "coords" = .ok (.arr [jsonNumber lat, jsonNumber lng])) ∧
  (∀ e, getProp r "elevationGain" = .ok (.num e) →
    getProp r2 "elevationGain" = .ok (jsonNumber e)) ∧
  (∀ p, getProp r "pace" = .ok (.num p) → getProp r2 "pace" = .ok (jsonNumber p)) ∧
  (∀ v, getProp r "speed" = .ok (.num v) → getProp r2 "speed" = .ok (jsonNumber v))

/-- The form after `_clearForm()`: hidden, the four inputs empty, the kind selection kept. -/
def clearedForm (f : Form) : Form :=
  { hidden := true, inputType := f.inputType, inputDistance := "", inputDuration := "",
    inputCadence := "", inputElevation := "" }

/-- English name of the month with index `m` (0 for January), as the specification words the
description label; used to compare with the table `months` of the code. -/
def englishMonthName : Nat → String
  | 0 => "January"
  | 1 => "February"
  | 2 => "March"
  | 3 => "April"
  | 4 => "May"
  | 5 => "June"
  | 6 => "July"
  | 7 => "August"
  | 8 => "September"
  | 9 => "October"
  | 10 => "November"
  | 11 => "December"
  | _ => ""

/-- The number written by a list of decimal digit characters, least significant first. -/
def digitsValue : List Char → Nat
  | [] => 0
  | c :: cs => (c.toNat - 48) + 10 * digitsValue cs

/-! ## Sample states -/

/-- A clock reading on 14 April 2026, 12:00 UTC, with local time two hours ahead of UTC. -/
def sampleEnv : Env :=
  { now := 1776168000000, dateNow := 1776168000000, localTZA := fun _ => 7200000 }

/-- The page right after `App` is constructed with nothing stored. -/
def startWorld : World :=
  { app := { map := none, mapEvent := none, workouts := .arr [] }
    form := { hidden := true, inputType := "running", inputDistance := "", inputDuration := "",
              inputCadence := "", inputElevation := "" }
    containerWorkouts := []
    localStorage := none
    alerts := [] }

/-- The page once the map has loaded at (51, 7) and was clicked at (10, 20). -/
def clickedWorld : World :=
  _showForm { lat := Number.fin 10, lng := Number.fin 20 }
    (_loadMap (Number.fin 51) (Number.fin 7) startWorld).world

/-- The given world with the form filled in. -/
def fillForm (type distance duration cadence elevation : String) (w : World) : World :=
  { w with form := { w.form with inputType := type, inputDistance := distance,
                                 inputDuration := duration, inputCadence := cadence,
                                 inputElevation := elevation } }

/-- Scenario D: a store of two valid records, a run and a ride, both made at (10, 20). -/
def scenarioD : List JSVal :=
  [Running sampleEnv (.arr [.num (Number.fin 10), .num (Number.fin 20)]) (Number.fin 5)
     (Number.fin 30) (Number.fin 150),
   Cycling sampleEnv (.arr [.num (Number.fin 10), .num (Number.fin 20)]) (Number.fin 20)
     (Number.fin 60) (Number.fin 400)]

/-- The page after a running form with distance `0.1`, duration `1e308` and cadence `150`
was submitted in the clicked page. -/
def overflowWorld : World :=
  (_newWorkout sampleEnv (fillForm "running" "0.1" "1e308" "150" "" clickedWorld)).world

/-- The page after two submissions within the same millisecond: a run at the click (10, 20)
and then a ride at a second click at (11, 21). -/
def duplicateWorld : World :=
  (_newWorkout sampleEnv (fillForm "cycling" "20" "60" "" "400"
    (_showForm { lat := Number.fin 11, lng := Number.fin 21 }
      (_newWorkout sampleEnv (fillForm "running" "5" "30" "150" "" clickedWorld)).world))).world

/-- The page started with the two records of Scenario D in storage, before (or without) the
position lookup succeeding: the list is rendered and there is no map. -/
def listOnlyWorld : World :=
  (_getLocalStorage
    { startWorld with localStorage := some (JSON.stringify (.arr scenarioD)) }).world

/-- The page after the running form of Scenario A was submitted in the clicked page. -/
def oneRecordWorld : World :=
  (_newWorkout sampleEnv (fillForm "running" "5" "30" "150" "" clickedWorld)).world

/-- The records of the store, when the store is an array. -/
def storeItems (w : World) : List JSVal :=
  match w.app.workouts with
  | .arr items => items
  | _ => []

/-- The `setView` requests the map has received, if there is a map. -/
def viewRequests (w : World) : Option (List (JSVal × Number)) :=
  w.app.map.map (fun m => m.views)

/-- The record of Scenario A: a run of 5 km in 30 min at cadence 150, made at (10, 20). -/
def scenarioA : JSVal :=
  Running sampleEnv (.arr [.num (Number.fin 10), .num (Number.fin 20)]) (Number.fin 5)
    (Number.fin 30) (Number.fin 150)

set_option maxRecDepth 100000

/-! ## Validation and rejection -/

theorem validInputs_three (a b c : Number) :
    validInputs [a, b, c] = (a.isFinite && b.isFinite && c.isFinite) := by
  simp [validInputs, Bool.and_assoc]

theorem allPositive_three (a b c : Number) :
    allPositive [a, b, c] =
      (a.gt (Number.fin 0) && b.gt (Number.fin 0) && c.gt (Number.fin 0)) := by
  simp [allPositive, Bool.and_assoc]

theorem allPositive_two (a b : Number) :
    allPositive [a, b] = (a.gt (Number.fin 0) && b.gt (Number.fin 0)) := by
  simp [allPositive]

/-- The test of the running branch fails exactly when one of the three numbers is invalid. -/
theorem running_check_iff (d t c : Number) :
    (!validInputs [d, t, c] || !allPositive [d, t, c]) = true ↔
      Invalid d ∨ Invalid t ∨ Invalid c := by
  rw [validInputs_three, allPositive_three]
  unfold Invalid
  cases d.isFinite <;> cases t.isFinite <;> cases c.isFinite <;>
    cases d.gt (Number.fin 0) <;> cases t.gt (Number.fin 0) <;> cases c.gt (Number.fin 0) <;>
    simp

/-- The test of the cycling branch fails exactly when distance or duration is invalid or the
elevation is not finite. -/
theorem cycling_check_iff (d t e : Number) :
    (!validInputs [d, t, e] || !allPositive [d, t]) = true ↔
      Invalid d ∨ Invalid t ∨ e.isFinite = false := by
  rw [validInputs_three, allPositive_two]
  unfold Invalid
  cases d.isFinite <;> cases t.isFinite <;> cases e.isFinite <;>
    cases d.gt (Number.fin 0) <;> cases t.gt (Number.fin 0) <;>
    simp

theorem newWorkout_running_rejected (env : Env) (w : World) (latlng : LatLng)
    (hev : w.app.mapEvent = some latlng) (hkind : w.form.inputType = "running")
    (hbad : Invalid (toNumber w.form.inputDistance) ∨ Invalid (toNumber w.form.inputDuration) ∨
      Invalid (toNumber w.form.inputCadence)) :
    _newWorkout env w = Outcome.done (rejected w) := by
  have h := (running_check_iff _ _ _).mpr hbad
  simp only [_newWorkout, hev, hkind, if_true, h, rejected]

theorem newWorkout_cycling_rejected (env : Env) (w : World) (latlng : LatLng)
    (hev : w.app.mapEvent = some latlng) (hkind : w.form.inputType = "cycling")
    (hbad : Invalid (toNumber w.form.inputDistance) ∨ Invalid (toNumber w.form.inputDuration) ∨
      (toNumber w.form.inputElevation).isFinite = false) :
    _newWorkout env w = Outcome.done (rejected w) := by
  have h := (cycling_check_iff _ _ _).mpr hbad
  have hne : ("cycling" = "running") = False := by decide
  simp only [_newWorkout, hev, hkind, hne, if_false, if_true, h, rejected]

theorem newWorkout_no_event (env : Env) (w : World) (hev : w.app.mapEvent = none) :
    _newWorkout env w = Outcome.throw w JSError.TypeError := by
  simp only [_newWorkout, hev]

/-- C1: a submission of kind running or cycling whose distance or duration is non-finite or
not greater than 0, or whose kind is running with such a cadence, is rejected: the store, the
rest of the application object, the persisted entry, the form (still shown, same input
values) and the list are as before; the outcome does not depend on the clock, as no record is
constructed; and once a map click is recorded the handler returns after the alert. -/
theorem newWorkout_rejects_invalid (env : Env) (w : World)
    (hkind : w.form.inputType = "running" ∨ w.form.inputType = "cycling")
    (hbad : Invalid (toNumber w.form.inputDistance) ∨ Invalid (toNumber w.form.inputDuration) ∨
      (w.form.inputType = "running" ∧ Invalid (toNumber w.form.inputCadence))) :
    (_newWorkout env w).world.app.workouts = w.app.workouts ∧
    (_newWorkout env w).world.app = w.app ∧
    (_newWorkout env w).world.localStorage = w.localStorage ∧
    (_newWorkout env w).world.form = w.form ∧
    (_newWorkout env w).world.containerWorkouts = w.containerWorkouts ∧
    (∀ env2 : Env, _newWorkout env2 w = _newWorkout env w) ∧
    (∀ latlng, w.app.mapEvent = some latlng →
      _newWorkout env w = Outcome.done { w with alerts := w.alerts ++ [alertMessage] }) := by
  have key : ∀ e : Env, (∀ latlng, w.app.mapEvent = some latlng →
      _newWorkout e w = Outcome.done (rejected w)) := by
    intro e latlng hev
    rcases hkind with hk | hk
    · refine newWorkout_running_rejected e w latlng hev hk ?_
      rcases hbad with h | h | h
      · exact Or.inl h
      · exact Or.inr (Or.inl h)
      · exact Or.inr (Or.inr h.2)
    · refine newWorkout_cycling_rejected e w latlng hev hk ?_
      rcases hbad with h | h | h
      · exact Or.inl h
      · exact Or.inr (Or.inl h)
      · rw [hk] at h
        exact absurd h.1 (by decide)
  cases hev : w.app.mapEvent with
  | none =>
    have h0 : ∀ e : Env, _newWorkout e w = Outcome.throw w JSError.TypeError :=
      fun e => newWorkout_no_event e w hev
    refine ⟨?_, ?_, ?_, ?_, ?_, ?_, ?_⟩
    · rw [h0]; rfl
    · rw [h0]; rfl
    · rw [h0]; rfl
    · rw [h0]; rfl
    · rw [h0]; rfl
    · intro e2; rw [h0, h0]
    · intro latlng h; exact absurd h (by simp)
  | some latlng =>
    have h1 : ∀ e : Env, _newWorkout e w = Outcome.done (rejected w) :=
      fun e => key e latlng hev
    refine ⟨?_, ?_, ?_, ?_, ?_, ?_, ?_⟩
    · rw [h1]; rfl
    · rw [h1]; rfl
    · rw [h1]; rfl
    · rw [h1]; rfl
    · rw [h1]; rfl
    · intro e2; rw [h1, h1]
    · intro ll _; rw [h1]; rfl

theorem valid_not_invalid {x : Number} (h : Valid x) : ¬ Invalid x := by
  unfold Valid at h
  unfold Invalid
  rw [h.1, h.2]
  simp

theorem newWorkout_running_accepted (env : Env) (w : World) (C : LatLng) (m : LeafletMap)
    (items : List JSVal) (hev : w.app.mapEvent = some C) (hmap : w.app.map = some m)
    (hstore : w.app.workouts = .arr items) (hkind : w.form.inputType = "running")
    (hd : Valid (toNumber w.form.inputDistance)) (ht : Valid (toNumber w.form.inputDuration))
    (hc : Valid (toNumber w.form.inputCadence)) :
    (_newWorkout env w).thrown = none ∧
    (_newWorkout env w).world.app.workouts = .arr (items ++
      [Running env (.arr [.num C.lat, .num C.lng]) (toNumber w.form.inputDistance)
        (toNumber w.form.inputDuration) (toNumber w.form.inputCadence)]) ∧
    (_newWorkout env w).world.localStorage = some (JSON.stringify (.arr (items ++
      [Running env (.arr [.num C.lat, .num C.lng]) (toNumber w.form.inputDistance)
        (toNumber w.form.inputDuration) (toNumber w.form.inputCadence)]))) ∧
    (_newWorkout env w).world.form = clearedForm w.form := by
  have hchk : (!validInputs [toNumber w.form.inputDistance, toNumber w.form.inputDuration,
      toNumber w.form.inputCadence] || !allPositive [toNumber w.form.inputDistance,
      toNumber w.form.inputDuration, toNumber w.form.inputCadence]) = false := by
    rw [Bool.eq_false_iff]
    intro h
    rcases (running_check_iff _ _ _).mp h with h | h | h
    · exact valid_not_invalid hd h
    · exact valid_not_invalid ht h
    · exact valid_not_invalid hc h
  simp [_newWorkout, hev, hkind, hchk, storeAndRender, hstore, _renderWorkoutMarker, getProp,
    Running, hmap, Outcome.andThen, Outcome.done, _renderWorkout, lookupProp, lookupPropOf,
    strictEqString, toFixedOperand, _setLocalStorage, _clearForm, _hideForm, clearedForm]

theorem newWorkout_cycling_accepted (env : Env) (w : World) (C : LatLng) (m : LeafletMap)
    (items : List JSVal) (hev : w.app.mapEvent = some C) (hmap : w.app.map = some m)
    (hstore : w.app.workouts = .arr items) (hkind : w.form.inputType = "cycling")
    (hd : Valid (toNumber w.form.inputDistance)) (ht : Valid (toNumber w.form.inputDuration))
    (he : (toNumber w.form.inputElevation).isFinite = true) :
    (_newWorkout env w).thrown = none ∧
    (_newWorkout env w).world.app.workouts = .arr (items ++
      [Cycling env (.arr [.num C.lat, .num C.lng]) (toNumber w.form.inputDistance)
        (toNumber w.form.inputDuration) (toNumber w.form.inputElevation)]) ∧
    (_newWorkout env w).world.localStorage = some (JSON.stringify (.arr (items ++
      [Cycling env (.arr [.num C.lat, .num C.lng]) (toNumber w.form.inputDistance)
        (toNumber w.form.inputDuration) (toNumber w.form.inputElevation)]))) ∧
    (_newWorkout env w).world.form = clearedForm w.form := by
  have hchk : (!validInputs [toNumber w.form.inputDistance, toNumber w.form.inputDuration,
      toNumber w.form.inputElevation] || !allPositive [toNumber w.form.inputDistance,
      toNumber w.form.inputDuration]) = false := by
    rw [Bool.eq_false_iff]
    intro h
    rcases (cycling_check_iff _ _ _).mp h with h | h | h
    · exact valid_not_invalid hd h
    · exact valid_not_invalid ht h
    · rw [he] at h; exact absurd h (by decide)
  have hne : ("cycling" = "running") = False := by decide
  simp [_newWorkout, hev, hkind, hne, hchk, storeAndRender, hstore, _renderWorkoutMarker,
    getProp, Cycling, hmap, Outcome.andThen, Outcome.done, _renderWorkout, lookupProp,
    lookupPropOf, strictEqString, toFixedOperand, _setLocalStorage, _clearForm, _hideForm,
    clearedForm]

/-- C4: a valid submission while the form awaits one for the click `C` appends exactly one
record to the end of the store, built at `C` from the submitted values, persists the
serialization of the new store, and leaves the form hidden with its four inputs cleared. -/
theorem newWorkout_appends_valid (env : Env) (w : World) (C : LatLng) (items : List JSVal)
    (hwait : AwaitingSubmission w C) (hstore : w.app.workouts = .arr items)
    (hvalid : ValidSubmission w.form) :
    ∃ record : JSVal,
      (_newWorkout env w).thrown = none ∧
      (_newWorkout env w).world.app.workouts = .arr (items ++ [record]) ∧
      getProp record "coords" = .ok (.arr [.num C.lat, .num C.lng]) ∧
      getProp record "distance" = .ok (.num (toNumber w.form.inputDistance)) ∧
      getProp record "duration" = .ok (.num (toNumber w.form.inputDuration)) ∧
      getProp record "type" = .ok (.str w.form.inputType) ∧
      (w.form.inputType = "running" →
        getProp record "cadence" = .ok (.num (toNumber w.form.inputCadence))) ∧
      (w.form.inputType = "cycling" →
        getProp record "elevationGain" = .ok (.num (toNumber w.form.inputElevation))) ∧
      (_newWorkout env w).world.localStorage =
        some (JSON.stringify (.arr (items ++ [record]))) ∧
      (_newWorkout env w).world.form.hidden = true ∧
      (_newWorkout env w).world.form.inputDistance = "" ∧
      (_newWorkout env w).world.form.inputDuration = "" ∧
      (_newWorkout env w).world.form.inputCadence = "" ∧
      (_newWorkout env w).world.form.inputElevation = "" := by
  obtain ⟨_, hev, hmap⟩ := hwait
  cases hm : w.app.map with
  | none => exact absurd hm hmap
  | some m =>
    rcases hvalid with ⟨hk, hd, ht, hc⟩ | ⟨hk, hd, ht, he⟩
    · obtain ⟨h1, h2, h3, h4⟩ :=
        newWorkout_running_accepted env w C m items hev hm hstore hk hd ht hc
      refine ⟨_, h1, h2, ?_, ?_, ?_, ?_, ?_, ?_, h3, ?_, ?_, ?_, ?_, ?_⟩
      · simp [Running, Workout, getProp, lookupProp]
      · simp [Running, Workout, getProp, lookupProp]
      · simp [Running, Workout, getProp, lookupProp]
      · simp [Running, Workout, getProp, lookupProp, hk]
      · intro _; simp [Running, Workout, getProp, lookupProp]
      · intro h; rw [hk] at h; exact absurd h (by decide)
      · rw [h4]; rfl
      · rw [h4]; rfl
      · rw [h4]; rfl
      · rw [h4]; rfl
      · rw [h4]; rfl
    · obtain ⟨h1, h2, h3, h4⟩ :=
        newWorkout_cycling_accepted env w C m items hev hm hstore hk hd ht he
      refine ⟨_, h1, h2, ?_, ?_, ?_, ?_, ?_, ?_, h3, ?_, ?_, ?_, ?_, ?_⟩
      · simp [Cycling, Workout, getProp, lookupProp]
      · simp [Cycling, Workout, getProp, lookupProp]
      · simp [Cycling, Workout, getProp, lookupProp]
      · simp [Cycling, Workout, getProp, lookupProp, hk]
      · intro h; rw [hk] at h; exact absurd h (by decide)
      · intro _; simp [Cycling, Workout, getProp, lookupProp]
      · rw [h4]; rfl
      · rw [h4]; rfl
      · rw [h4]; rfl
      · rw [h4]; rfl
      · rw [h4]; rfl

/-- Scenario C for C1: in the clicked page, a running form with distance `-5` is rejected and
the store keeps its contents. -/
theorem newWorkout_rejects_invalid_witness :
    Invalid (toNumber (fillForm "running" "-5" "30" "150" "" clickedWorld).form.inputDistance) ∧
    (_newWorkout sampleEnv (fillForm "running" "-5" "30" "150" "" clickedWorld)).world.app.workouts
      = JSVal.arr [] ∧
    (_newWorkout sampleEnv (fillForm "running" "-5" "30" "150" "" clickedWorld)).world.form
      = (fillForm "running" "-5" "30" "150" "" clickedWorld).form :=
  ⟨Or.inr (by decide!),
   (newWorkout_rejects_invalid sampleEnv (fillForm "running" "-5" "30" "150" "" clickedWorld)
      (Or.inl rfl) (Or.inl (Or.inr (by decide!)))).1,
   (newWorkout_rejects_invalid sampleEnv (fillForm "running" "-5" "30" "150" "" clickedWorld)
      (Or.inl rfl) (Or.inl (Or.inr (by decide!)))).2.2.2.1⟩

/-- Scenario A for C4: in the clicked page, a running form with distance 5, duration 30 and
cadence 150 appends one record at the click position and hides the form. -/
theorem newWorkout_appends_valid_witness :
    AwaitingSubmission (fillForm "running" "5" "30" "150" "" clickedWorld)
      { lat := Number.fin 10, lng := Number.fin 20 } ∧
    ValidSubmission (fillForm "running" "5" "30" "150" "" clickedWorld).form ∧
    ∃ record : JSVal,
      (_newWorkout sampleEnv (fillForm "running" "5" "30" "150" "" clickedWorld)).world.app.workouts
        = .arr ([] ++ [record]) ∧
      getProp record "coords" = .ok (.arr [.num (Number.fin 10), .num (Number.fin 20)]) ∧
      (_newWorkout sampleEnv (fillForm "running" "5" "30" "150" "" clickedWorld)).world.form.hidden
        = true :=
  have hwait : AwaitingSubmission (fillForm "running" "5" "30" "150" "" clickedWorld)
      { lat := Number.fin 10, lng := Number.fin 20 } := ⟨rfl, rfl, by decide!⟩
  have hvalid : ValidSubmission (fillForm "running" "5" "30" "150" "" clickedWorld).form :=
    Or.inl ⟨rfl, ⟨by decide!, by decide!⟩, ⟨by decide!, by decide!⟩, ⟨by decide!, by decide!⟩⟩
  ⟨hwait, hvalid,
    (newWorkout_appends_valid sampleEnv (fillForm "running" "5" "30" "150" "" clickedWorld)
      { lat := Number.fin 10, lng := Number.fin 20 } [] hwait rfl hvalid).imp
      (fun _ h => ⟨h.2.1, h.2.2.1, h.2.2.2.2.2.2.2.2.2.1⟩)⟩

/-- C8: a cycling submission with valid distance and duration and a finite elevation gain
that is zero or negative is accepted and appends a cycling record carrying that elevation
gain; a non-finite elevation gain is rejected. -/
theorem newWorkout_cycling_elevation (env : Env) (w : World) (C : LatLng) (items : List JSVal)
    (hwait : AwaitingSubmission w C) (hstore : w.app.workouts = .arr items)
    (hkind : w.form.inputType = "cycling")
    (hd : Valid (toNumber w.form.inputDistance)) (ht : Valid (toNumber w.form.inputDuration)) :
    ((toNumber w.form.inputElevation).isFinite = true →
      (toNumber w.form.inputElevation).gt (Number.fin 0) = false →
      ∃ record : JSVal,
        (_newWorkout env w).thrown = none ∧
        (_newWorkout env w).world.app.workouts = .arr (items ++ [record]) ∧
        getProp record "type" = .ok (.str "cycling") ∧
        getProp record "elevationGain" = .ok (.num (toNumber w.form.inputElevation))) ∧
    ((toNumber w.form.inputElevation).isFinite = false →
      _newWorkout env w = Outcome.done (rejected w) ∧
      (_newWorkout env w).world.app.workouts = .arr items) := by
  obtain ⟨_, hev, hmap⟩ := hwait
  constructor
  · intro he _
    cases hm : w.app.map with
    | none => exact absurd hm hmap
    | some m =>
      obtain ⟨h1, h2, _, _⟩ :=
        newWorkout_cycling_accepted env w C m items hev hm hstore hkind hd ht he
      refine ⟨_, h1, h2, ?_, ?_⟩
      · simp [Cycling, Workout, getProp, lookupProp]
      · simp [Cycling, Workout, getProp, lookupProp]
  · intro he
    have h := newWorkout_cycling_rejected env w C hev hkind (Or.inr (Or.inr he))
    refine ⟨h, ?_⟩
    rw [h]
    exact hstore

/-- An instance of C8: in the clicked page, a cycling form with distance 20, duration 60 and
elevation gain `-3` is accepted and the record keeps `-3`. -/
theorem newWorkout_cycling_elevation_witness :
    Valid (toNumber (fillForm "cycling" "20" "60" "" "-3" clickedWorld).form.inputDistance) ∧
    toNumber "-3" = Number.fin (-3) ∧
    ∃ record : JSVal,
      (_newWorkout sampleEnv (fillForm "cycling" "20" "60" "" "-3" clickedWorld)).thrown = none ∧
      (_newWorkout sampleEnv (fillForm "cycling" "20" "60" "" "-3" clickedWorld)).world.app.workouts
        = .arr ([] ++ [record]) ∧
      getProp record "type" = .ok (.str "cycling") ∧
      getProp record "elevationGain" = .ok (.num (toNumber "-3")) :=
  ⟨⟨by decide!, by decide!⟩, by decide!,
    (newWorkout_cycling_elevation sampleEnv (fillForm "cycling" "20" "60" "" "-3" clickedWorld)
      { lat := Number.fin 10, lng := Number.fin 20 } [] ⟨rfl, rfl, by decide!⟩ rfl rfl
      ⟨by decide!, by decide!⟩ ⟨by decide!, by decide!⟩).1 (by decide!) (by decide!)⟩

/-! ## Derived metrics -/

theorem running_pace (env : Env) (coords : JSVal) (distance duration cadence : Number) :
    getProp (Running env coords distance duration cadence) "pace" =
      .ok (.num (duration.div distance)) := by
  simp [Running, Workout, calcPace, getProp, lookupProp]

theorem cycling_speed (env : Env) (coords : JSVal) (distance duration elevation : Number) :
    getProp (Cycling env coords distance duration elevation) "speed" =
      .ok (.num (distance.div (duration.div (Number.fin 60)))) := by
  simp [Cycling, Workout, calcSpeed, getProp, lookupProp]

/-- C2: a record built by `Running` has pace `duration / distance` and a record built by
`Cycling` has speed `distance / (duration / 60)`, the division being that of Numbers; running
5 km in 30 min has pace 6 and cycling 20 km in 60 min has speed 20. -/
theorem pace_and_speed (env : Env) (coords : JSVal) (distance duration extra : Number) :
    getProp (Running env coords distance duration extra) "pace" =
      .ok (.num (duration.div distance)) ∧
    getProp (Cycling env coords distance duration extra) "speed" =
      .ok (.num (distance.div (duration.div (Number.fin 60)))) ∧
    getProp (Running env coords (Number.fin 5) (Number.fin 30) extra) "pace" =
      .ok (.num (Number.fin 6)) ∧
    getProp (Cycling env coords (Number.fin 20) (Number.fin 60) extra) "speed" =
      .ok (.num (Number.fin 20)) := by
  have h6 : (Number.fin 30).div (Number.fin 5) = Number.fin 6 := by decide!
  have h20 : (Number.fin 20).div ((Number.fin 60).div (Number.fin 60)) = Number.fin 20 := by
    decide!
  refine ⟨running_pace _ _ _ _ _, cycling_speed _ _ _ _ _, ?_, ?_⟩
  · exact (running_pace _ _ _ _ _).trans (by rw [h6])
  · exact (cycling_speed _ _ _ _ _).trans (by rw [h20])

/-! ## Calendar facts -/

theorem dayFromYear_succ (y : Int) : DayFromYear (y + 1) = DayFromYear y + DaysInYear y := by
  unfold DayFromYear DaysInYear
  split_ifs <;> omega

theorem yearFromTime_spec (t : Int) :
    DayFromYear (YearFromTime t) ≤ Day t ∧ Day t < DayFromYear (YearFromTime t + 1) := by
  unfold YearFromTime
  generalize Day t = d
  simp only
  generalize hy : 1970 + d * 400 / 146097 = y
  have h1 : 146097 * (y - 1970) ≤ d * 400 := by omega
  have h2 : d * 400 < 146097 * (y - 1970) + 146097 := by omega
  split_ifs with c1 c2
  · have e : y - 1 + 1 = y := by omega
    rw [e]
    refine ⟨?_, c1⟩
    unfold DayFromYear at c1 ⊢
    omega
  · refine ⟨c2, ?_⟩
    unfold DayFromYear at c1 c2 ⊢
    omega
  · exact ⟨by omega, by omega⟩

theorem dayWithinYear_range (t : Int) :
    0 ≤ DayWithinYear t ∧ DayWithinYear t < DaysInYear (YearFromTime t) := by
  have h := yearFromTime_spec t
  rw [dayFromYear_succ] at h
  unfold DayWithinYear
  omega

theorem ite_lt_of_lt {c : Prop} [Decidable c] {a b n : Nat} (ha : a < n) (hb : b < n) :
    (if c then a else b) < n := by
  by_cases h : c
  · rw [if_pos h]; exact ha
  · rw [if_neg h]; exact hb

theorem monthFromTime_lt (t : Int) : MonthFromTime t < 12 := by
  unfold MonthFromTime
  repeat' apply ite_lt_of_lt
  all_goals decide

theorem dateFromTime_range (t : Int) : 1 ≤ DateFromTime t ∧ DateFromTime t ≤ 31 := by
  have h := dayWithinYear_range t
  have hl : InLeapYear t = DaysInYear (YearFromTime t) - 365 := by
    unfold InLeapYear DaysInYear
    split_ifs <;> omega
  have hd : DaysInYear (YearFromTime t) = 365 ∨ DaysInYear (YearFromTime t) = 366 := by
    unfold DaysInYear
    split_ifs <;> simp
  unfold DateFromTime MonthFromTime
  generalize DayWithinYear t = d at h ⊢
  generalize InLeapYear t = leap at hl ⊢
  generalize DaysInYear (YearFromTime t) = n at h hl hd
  by_cases h0 : d < 31
  · simp only [if_pos h0]; omega
  simp only [if_neg h0]
  by_cases h1 : d < 59 + leap
  · simp only [if_pos h1]; omega
  simp only [if_neg h1]
  by_cases h2 : d < 90 + leap
  · simp only [if_pos h2]; omega
  simp only [if_neg h2]
  by_cases h3 : d < 120 + leap
  · simp only [if_pos h3]; omega
  simp only [if_neg h3]
  by_cases h4 : d < 151 + leap
  · simp only [if_pos h4]; omega
  simp only [if_neg h4]
  by_cases h5 : d < 181 + leap
  · simp only [if_pos h5]; omega
  simp only [if_neg h5]
  by_cases h6 : d < 212 + leap
  · simp only [if_pos h6]; omega
  simp only [if_neg h6]
  by_cases h7 : d < 243 + leap
  · simp only [if_pos h7]; omega
  simp only [if_neg h7]
  by_cases h8 : d < 273 + leap
  · simp only [if_pos h8]; omega
  simp only [if_neg h8]
  by_cases h9 : d < 304 + leap
  · simp only [if_pos h9]; omega
  simp only [if_neg h9]
  by_cases h10 : d < 334 + leap
  · simp only [if_pos h10]; omega
  simp only [if_neg h10]
  omega

/-! ## The description label -/

theorem months_getD (m : Nat) (h : m < 12) : months.getD m "undefined" = englishMonthName m := by
  interval_cases m <;> rfl

theorem getMonth_lt (env : Env) (t : Int) : getMonth env t < 12 := monthFromTime_lt _

theorem getDate_range (env : Env) (t : Int) : 1 ≤ getDate env t ∧ getDate env t ≤ 31 :=
  dateFromTime_range _

theorem setDescription_eq (env : Env) (type : String) (date : Int) :
    _setDescription env type date =
      capitalizeFirst type ++ " on " ++ englishMonthName (getMonth env date) ++ " " ++
        intToString (getDate env date) := by
  unfold _setDescription
  rw [months_getD _ (getMonth_lt _ _)]

/-- C9: the description of a record built by `Running` or `Cycling` with creation date `d` is
its kind with the first letter upper-cased, then ` on `, the English name of the month of `d`,
a space and the day of the month of `d`; the month index lies within the 12-entry table and
the day between 1 and 31.  A record created on 14 April reads `Running on April 14`. -/
theorem description_format (env : Env) (coords : JSVal) (distance duration extra : Number) :
    getProp (Running env coords distance duration extra) "date" = .ok (.date env.dateNow) ∧
    getProp (Cycling env coords distance duration extra) "date" = .ok (.date env.dateNow) ∧
    getProp (Running env coords distance duration extra) "description" =
      .ok (.str ("Running" ++ " on " ++ englishMonthName (getMonth env env.dateNow) ++ " " ++
        intToString (getDate env env.dateNow))) ∧
    getProp (Cycling env coords distance duration extra) "description" =
      .ok (.str ("Cycling" ++ " on " ++ englishMonthName (getMonth env env.dateNow) ++ " " ++
        intToString (getDate env env.dateNow))) ∧
    getMonth env env.dateNow < months.length ∧ months.length = 12 ∧
    1 ≤ getDate env env.dateNow ∧ getDate env env.dateNow ≤ 31 ∧
    getProp (Running sampleEnv coords distance duration extra) "description" =
      .ok (.str "Running on April 14") := by
  have hr : capitalizeFirst "running" = "Running" := by decide
  have hc : capitalizeFirst "cycling" = "Cycling" := by decide
  have hs : _setDescription sampleEnv "running" sampleEnv.dateNow = "Running on April 14" := by
    decide!
  refine ⟨?_, ?_, ?_, ?_, getMonth_lt _ _, rfl, (getDate_range _ _).1,
    (getDate_range _ _).2, ?_⟩
  · simp [Running, Workout, getProp, lookupProp]
  · simp [Cycling, Workout, getProp, lookupProp]
  · rw [← hr, ← setDescription_eq]
    simp [Running, Workout, getProp, lookupProp]
  · rw [← hc, ← setDescription_eq]
    simp [Cycling, Workout, getProp, lookupProp]
  · rw [← hs]
    simp [Running, Workout, getProp, lookupProp]

/-! ## Record identifiers -/

theorem digit_char_value (d : Nat) (h : d < 10) : (Char.ofNat (48 + d)).toNat - 48 = d := by
  interval_cases d <;> decide

theorem take_decimalDigits_value (k : Nat) :
    ∀ fuel n : Nat, n < fuel → digitsValue ((decimalDigits fuel n).take k) = n % 10 ^ k := by
  induction k with
  | zero => intro fuel n _; simp [digitsValue, Nat.mod_one]
  | succ k ih =>
    intro fuel n h
    cases fuel with
    | zero => exact absurd h (Nat.not_lt_zero _)
    | succ fuel =>
      unfold decimalDigits
      by_cases h10 : n < 10
      · rw [if_pos h10]
        have hp : 10 ≤ 10 ^ (k + 1) := by
          calc 10 = 10 ^ 1 := by norm_num
            _ ≤ 10 ^ (k + 1) := Nat.pow_le_pow_right (by norm_num) (by omega)
        simp only [List.take_succ_cons, List.take_nil, digitsValue]
        rw [digit_char_value n h10, Nat.mod_eq_of_lt (by omega)]
        omega
      · rw [if_neg h10]
        simp only [List.take_succ_cons, digitsValue]
        rw [ih fuel (n / 10) (by omega), digit_char_value _ (Nat.mod_lt _ (by norm_num)),
          pow_succ', Nat.mod_mul]

theorem sliceLast_natToString (k n : Nat) :
    sliceLast k (natToString n) = String.mk ((decimalDigits (n + 1) n).take k).reverse := by
  unfold sliceLast natToString
  simp only [String.toList]
  rw [List.reverse_take, List.length_reverse]

theorem sliceLast_natToString_mod (k a b : Nat)
    (h : sliceLast k (natToString a) = sliceLast k (natToString b)) : a % 10 ^ k = b % 10 ^ k := by
  rw [sliceLast_natToString, sliceLast_natToString] at h
  have h1 := List.reverse_injective (congrArg String.data h)
  rw [← take_decimalDigits_value k (a + 1) a (by omega),
    ← take_decimalDigits_value k (b + 1) b (by omega), h1]

theorem intToString_of_nonneg (t : Int) (h : 0 ≤ t) : intToString t = natToString t.toNat := by
  unfold intToString
  rw [if_pos h]

theorem running_id (env : Env) (coords : JSVal) (distance duration cadence : Number) :
    getProp (Running env coords distance duration cadence) "id" =
      .ok (.str (sliceLast 10 (intToString env.now))) := by
  simp [Running, Workout, getProp, lookupProp]

theorem cycling_id (env : Env) (coords : JSVal) (distance duration elevation : Number) :
    getProp (Cycling env coords distance duration elevation) "id" =
      .ok (.str (sliceLast 10 (intToString env.now))) := by
  simp [Cycling, Workout, getProp, lookupProp]

/-- C10, as amended: the id of a record is the last 10 characters of the decimal string of
the clock reading `Date.now()` taken at its creation, and two records created at different
non-negative readings less than `10^10` ms apart have different ids. -/
theorem workout_id_distinct (env1 env2 : Env) (coords1 coords2 : JSVal)
    (distance1 duration1 extra1 distance2 duration2 extra2 : Number)
    (h1 : 0 ≤ env1.now) (h2 : 0 ≤ env2.now) (hne : env1.now ≠ env2.now)
    (hclose1 : env1.now - env2.now < 10 ^ 10) (hclose2 : env2.now - env1.now < 10 ^ 10) :
    getProp (Running env1 coords1 distance1 duration1 extra1) "id" =
      .ok (.str (sliceLast 10 (intToString env1.now))) ∧
    getProp (Cycling env1 coords1 distance1 duration1 extra1) "id" =
      .ok (.str (sliceLast 10 (intToString env1.now))) ∧
    getProp (Running env1 coords1 distance1 duration1 extra1) "id" ≠
      getProp (Running env2 coords2 distance2 duration2 extra2) "id" ∧
    getProp (Running env1 coords1 distance1 duration1 extra1) "id" ≠
      getProp (Cycling env2 coords2 distance2 duration2 extra2) "id" ∧
    getProp (Cycling env1 coords1 distance1 duration1 extra1) "id" ≠
      getProp (Cycling env2 coords2 distance2 duration2 extra2) "id" := by
  have key : sliceLast 10 (intToString env1.now) ≠ sliceLast 10 (intToString env2.now) := by
    intro h
    rw [intToString_of_nonneg _ h1, intToString_of_nonneg _ h2] at h
    have hm := sliceLast_natToString_mod 10 _ _ h
    have e1 : ((env1.now.toNat : Nat) : Int) = env1.now := Int.toNat_of_nonneg h1
    have e2 : ((env2.now.toNat : Nat) : Int) = env2.now := Int.toNat_of_nonneg h2
    have hn : env1.now.toNat ≠ env2.now.toNat := by
      intro e
      apply hne
      rw [← e1, ← e2, e]
    norm_num at hm hclose1 hclose2
    omega
  have key2 : (Except.ok (JSVal.str (sliceLast 10 (intToString env1.now))) :
      Except JSError JSVal) ≠ Except.ok (JSVal.str (sliceLast 10 (intToString env2.now))) := by
    intro h
    injection h with h
    injection h with h
    exact key h
  refine ⟨running_id _ _ _ _ _, cycling_id _ _ _ _ _, ?_, ?_, ?_⟩
  · rw [running_id, running_id]; exact key2
  · rw [running_id, cycling_id]; exact key2
  · rw [cycling_id, cycling_id]; exact key2

/-- A counterexample to C10 as stated: two records created at different millisecond
timestamps, `10^10` ms (about 116 days) apart, carry the same id `0000000000`. -/
theorem workout_id_collision :
    (1700000000000 : Int) ≠ 1710000000000 ∧
    getProp (Running { sampleEnv with now := 1700000000000 }
      (.arr [.num (Number.fin 10), .num (Number.fin 20)]) (Number.fin 5) (Number.fin 30)
      (Number.fin 150)) "id" = .ok (.str "0000000000") ∧
    getProp (Running { sampleEnv with now := 1710000000000 }
      (.arr [.num (Number.fin 10), .num (Number.fin 20)]) (Number.fin 5) (Number.fin 30)
      (Number.fin 150)) "id" = .ok (.str "0000000000") := by
  decide!

/-- An instance of the amended C10: records created one millisecond apart have different
ids. -/
theorem workout_id_distinct_witness :
    getProp (Running { sampleEnv with now := 1776168000000 } .null (Number.fin 5) (Number.fin 30)
      (Number.fin 150)) "id" ≠
    getProp (Running { sampleEnv with now := 1776168000001 } .null (Number.fin 5) (Number.fin 30)
      (Number.fin 150)) "id" :=
  (workout_id_distinct { sampleEnv with now := 1776168000000 }
    { sampleEnv with now := 1776168000001 } .null .null (Number.fin 5) (Number.fin 30)
    (Number.fin 150) (Number.fin 5) (Number.fin 30) (Number.fin 150)
    (by decide) (by decide) (by decide) (by decide) (by decide)).2.2.1

/-! ## The persistence round trip -/

theorem jsonNumber_of_valid {n : Number} (h : Valid n) : jsonNumber n = .num n := by
  obtain ⟨hf, hg⟩ := h
  unfold jsonNumber
  rw [hf, if_pos rfl]
  have hz : n ≠ Number.negZero := by
    intro e
    rw [e] at hg
    exact absurd hg (by decide)
  rw [if_neg hz]

theorem serializeItems_eq_map (xs : List JSVal) :
    serializeItems xs = xs.map (fun x => (serialize x).getD .null) := by
  induction xs with
  | nil => simp [serializeItems]
  | cons x xs ih => simp [serializeItems, ih]

theorem jsonNumber_serialize (n : Number) : ∃ j, serialize (jsonNumber n) = some j := by
  unfold jsonNumber
  split_ifs <;> simp [serialize]

theorem serialize_running (env : Env) (C : LatLng) (d t c : Number) :
    serialize (Running env (.arr [.num C.lat, .num C.lng]) d t c) = some (.obj
      [("id", .str (sliceLast 10 (intToString env.now))),
       ("date", .str (toISOString env.dateNow)),
       ("coords", .arr [jsonNumber C.lat, jsonNumber C.lng]),
       ("distance", jsonNumber d), ("duration", jsonNumber t), ("type", .str "running"),
       ("cadence", jsonNumber c), ("pace", jsonNumber (t.div d)),
       ("description", .str (_setDescription env "running" env.dateNow))]) := by
  simp [Running, Workout, calcPace, serialize, serializeProps, serializeItems]

theorem serialize_cycling (env : Env) (C : LatLng) (d t e : Number) :
    serialize (Cycling env (.arr [.num C.lat, .num C.lng]) d t e) = some (.obj
      [("id", .str (sliceLast 10 (intToString env.now))),
       ("date", .str (toISOString env.dateNow)),
       ("coords", .arr [jsonNumber C.lat, jsonNumber C.lng]),
       ("distance", jsonNumber d), ("duration", jsonNumber t), ("type", .str "cycling"),
       ("elevationGain", jsonNumber e), ("speed", jsonNumber (d.div (t.div (Number.fin 60)))),
       ("description", .str (_setDescription env "cycling" env.dateNow))]) := by
  simp [Cycling, Workout, calcSpeed, serialize, serializeProps, serializeItems]

theorem readBack_of_built (r : JSVal) (h : IsBuilt r) :
    ReadBack r ((serialize r).getD .null) := by
  cases h with
  | running env C d t c hd ht hc =>
    rw [serialize_running, jsonNumber_of_valid hd, jsonNumber_of_valid ht,
      jsonNumber_of_valid hc]
    simp [ReadBack, Running, Workout, calcPace, getProp, lookupProp]
  | cycling env C d t e hd ht he =>
    rw [serialize_cycling, jsonNumber_of_valid hd, jsonNumber_of_valid ht]
    simp [ReadBack, Cycling, Workout, calcSpeed, getProp, lookupProp]

theorem renderWorkout_app (x : JSVal) (w : World) : (_renderWorkout x w).world.app = w.app := by
  unfold _renderWorkout
  cases getProp x "type" with
  | error e => rfl
  | ok type =>
    simp only
    split_ifs
    · cases toFixedOperand (lookupPropOf x "pace") <;> rfl
    · cases toFixedOperand (lookupPropOf x "speed") <;> rfl

theorem forEach_renderWorkout_app (items : List JSVal) :
    ∀ w : World, (forEachOutcome _renderWorkout items w).world.app = w.app := by
  induction items with
  | nil => intro w; rfl
  | cons x xs ih =>
    intro w
    unfold forEachOutcome Outcome.andThen
    cases h : (_renderWorkout x w).thrown with
    | some e => simp only; exact renderWorkout_app x w
    | none => simp only; rw [ih, renderWorkout_app]

theorem getLocalStorage_installs (w : World) (v : JSVal)
    (hs : w.localStorage = some (.json v)) (ht : toBoolean v = true) :
    (_getLocalStorage w).world.app.workouts = v := by
  unfold _getLocalStorage
  rw [hs]
  simp only [JSON.parse, ht, Bool.not_true, Bool.false_eq_true, if_false]
  unfold forEachWorkout
  cases v with
  | arr items => simp only; rw [forEach_renderWorkout_app]
  | _ => rfl

/-- C3, as amended: for a store built from successful constructions, what `_getLocalStorage`
reads back from what `_setLocalStorage` wrote is a sequence of the same length and order in
which each record agrees with the original as `ReadBack` says: same `id`, `distance`,
`duration`, `type`, `cadence`, `description`; the creation Date as its ISO string; the
coordinates, `elevationGain`, `pace` and `speed` as `jsonNumber` of the original. -/
theorem storage_round_trip (records : List JSVal) (w w0 : World)
    (hbuilt : ∀ r ∈ records, IsBuilt r) (hstore : w.app.workouts = .arr records) :
    ∃ restored : List JSVal,
      JSON.parse (_setLocalStorage w).localStorage = .ok (.arr restored) ∧
      (_getLocalStorage { w0 with localStorage := (_setLocalStorage w).localStorage }
        ).world.app.workouts = .arr restored ∧
      restored.length = records.length ∧
      ∀ (i : Nat) (h1 : i < records.length) (h2 : i < restored.length),
        ReadBack (records.get ⟨i, h1⟩) (restored.get ⟨i, h2⟩) := by
  have hst : (_setLocalStorage w).localStorage = some (.json (.arr (serializeItems records))) := by
    simp [_setLocalStorage, hstore, JSON.stringify, serialize]
  refine ⟨serializeItems records, ?_, ?_, ?_, ?_⟩
  · rw [hst]; rfl
  · exact getLocalStorage_installs _ _ hst rfl
  · rw [serializeItems_eq_map, List.length_map]
  · intro i h1 h2
    have e : (serializeItems records).get ⟨i, h2⟩ =
        (serialize (records.get ⟨i, h1⟩)).getD .null := by
      simp [serializeItems_eq_map]
    rw [e]
    exact readBack_of_built _ (hbuilt _ (List.get_mem _ _ _))

/-- Scenario D for the amended C3: the store of two valid records reads back as two records
that agree with the originals as `ReadBack` says. -/
theorem storage_round_trip_witness :
    (∀ r ∈ scenarioD, IsBuilt r) ∧
    ∃ restored : List JSVal,
      JSON.parse (_setLocalStorage
        { startWorld with app := { startWorld.app with workouts := .arr scenarioD } }
        ).localStorage = .ok (.arr restored) ∧
      restored.length = scenarioD.length ∧
      ∀ (i : Nat) (h1 : i < scenarioD.length) (h2 : i < restored.length),
        ReadBack (scenarioD.get ⟨i, h1⟩) (restored.get ⟨i, h2⟩) :=
  have hbuilt : ∀ r ∈ scenarioD, IsBuilt r := by
    intro r hr
    simp only [scenarioD, List.mem_cons, List.mem_singleton, List.not_mem_nil, or_false] at hr
    rcases hr with e | e
    · rw [e]
      exact IsBuilt.running sampleEnv { lat := Number.fin 10, lng := Number.fin 20 } _ _ _
        ⟨by decide!, by decide!⟩ ⟨by decide!, by decide!⟩ ⟨by decide!, by decide!⟩
    · rw [e]
      exact IsBuilt.cycling sampleEnv { lat := Number.fin 10, lng := Number.fin 20 } _ _ _
        ⟨by decide!, by decide!⟩ ⟨by decide!, by decide!⟩ (by decide!)
  ⟨hbuilt,
    (storage_round_trip scenarioD
      { startWorld with app := { startWorld.app with workouts := .arr scenarioD } } startWorld
      hbuilt rfl).imp (fun _ h => ⟨h.1, h.2.2.1, h.2.2.2⟩)⟩

/-- A counterexample to C3 as stated: the valid running submission with distance `0.1` and
duration `1e308` builds a record whose pace is `Infinity` and whose `date` is a Date; what is
read back from storage has `pace` equal to `null` and `date` equal to a string, and rendering
it at the next start throws. -/
theorem storage_round_trip_overflow :
    ValidSubmission (fillForm "running" "0.1" "1e308" "150" "" clickedWorld).form ∧
    overflowWorld.app.workouts = .arr [.obj
      [("id", .str "6168000000"), ("date", .date 1776168000000),
       ("coords", .arr [.num (Number.fin 10), .num (Number.fin 20)]),
       ("distance", .num (toNumber "0.1")), ("duration", .num (toNumber "1e308")),
       ("type", .str "running"), ("cadence", .num (Number.fin 150)),
       ("pace", .num (Number.inf false)), ("description", .str "Running on April 14")]] ∧
    JSON.parse overflowWorld.localStorage = .ok (.arr [.obj
      [("id", .str "6168000000"), ("date", .str "2026-04-14T12:00:00.000Z"),
       ("coords", .arr [.num (Number.fin 10), .num (Number.fin 20)]),
       ("distance", .num (toNumber "0.1")), ("duration", .num (toNumber "1e308")),
       ("type", .str "running"), ("cadence", .num (Number.fin 150)),
       ("pace", .null), ("description", .str "Running on April 14")]]) ∧
    (_getLocalStorage { startWorld with localStorage := overflowWorld.localStorage }).thrown =
      some JSError.TypeError :=
  ⟨Or.inl ⟨rfl, ⟨by decide!, by decide!⟩, ⟨by decide!, by decide!⟩, ⟨by decide!, by decide!⟩⟩,
    by decide!, by decide!, by decide!⟩

/-! ## Loading the stored entry -/

/-- C5, as amended: with an absent entry `_getLocalStorage` returns normally and leaves the
world, hence the store, as it is; with a text that is not JSON it also leaves the world as it
is but throws a SyntaxError; stored JSON is not shape-checked: a falsy value is ignored and
any other value is installed as the store. -/
theorem getLocalStorage_cases (w : World) :
    (w.localStorage = none → _getLocalStorage w = Outcome.done w) ∧
    (w.localStorage = some .malformed →
      _getLocalStorage w = Outcome.throw w JSError.SyntaxError) ∧
    (∀ v, w.localStorage = some (.json v) → toBoolean v = false →
      _getLocalStorage w = Outcome.done w) ∧
    (∀ v, w.localStorage = some (.json v) → toBoolean v = true →
      (_getLocalStorage w).world.app.workouts = v) := by
  refine ⟨?_, ?_, ?_, ?_⟩
  · intro h
    unfold _getLocalStorage
    rw [h]
    rfl
  · intro h
    unfold _getLocalStorage
    rw [h]
    rfl
  · intro v h hv
    unfold _getLocalStorage
    rw [h]
    simp [JSON.parse, hv]
  · intro v h hv
    exact getLocalStorage_installs w v h hv

/-- An instance of the amended C5: at the first start, with nothing stored, loading returns
normally and the store stays the empty sequence. -/
theorem getLocalStorage_cases_witness :
    startWorld.localStorage = none ∧ _getLocalStorage startWorld = Outcome.done startWorld ∧
    (_getLocalStorage startWorld).world.app.workouts = .arr [] :=
  ⟨rfl, (getLocalStorage_cases startWorld).1 rfl,
    by rw [(getLocalStorage_cases startWorld).1 rfl]; rfl⟩

/-- A counterexample to C5 as stated: loading a text that is not JSON throws a SyntaxError;
loading the JSON number `5` throws a TypeError and leaves the store equal to `5`; loading
the JSON array `[1]` throws a TypeError and leaves the store equal to `[1]`. -/
theorem getLocalStorage_raises :
    (_getLocalStorage { startWorld with localStorage := some .malformed }).thrown =
      some JSError.SyntaxError ∧
    (_getLocalStorage { startWorld with
      localStorage := some (.json (.num (Number.fin 5))) }).thrown = some JSError.TypeError ∧
    (_getLocalStorage { startWorld with
      localStorage := some (.json (.num (Number.fin 5))) }).world.app.workouts =
        .num (Number.fin 5) ∧
    (_getLocalStorage { startWorld with
      localStorage := some (.json (.arr [.num (Number.fin 1)])) }).thrown =
        some JSError.TypeError ∧
    (_getLocalStorage { startWorld with
      localStorage := some (.json (.arr [.num (Number.fin 1)])) }).world.app.workouts =
        .arr [.num (Number.fin 1)] := by
  decide!

/-! ## Moving the map to a record -/

theorem findById_skip (id : String) (pre rest : List JSVal)
    (h : ∀ x ∈ pre, matchesId id x = .ok false) :
    findById id (pre ++ rest) = findById id rest := by
  induction pre with
  | nil => rfl
  | cons x xs ih =>
    have hx := h x (List.mem_cons_self _ _)
    simp only [List.cons_append, findById, hx]
    exact ih (fun y hy => h y (List.mem_cons_of_mem _ hy))

theorem findById_none (id : String) (items : List JSVal)
    (h : ∀ x ∈ items, matchesId id x = .ok false) : findById id items = .ok .undefined := by
  have := findById_skip id items [] h
  rw [List.append_nil] at this
  rw [this]
  rfl

/-- C6, as amended: when the map exists and `r` is the first record of the store that carries
the clicked id, `_moveToPosition` returns normally having issued exactly one `setView`
request, to the coords of `r` at zoom 12, and changes nothing else. -/
theorem moveToPosition_pans (w : World) (m : LeafletMap) (pre post : List JSVal) (r : JSVal)
    (id : String) (hmap : w.app.map = some m) (hstore : w.app.workouts = .arr (pre ++ r :: post))
    (hid : getProp r "id" = .ok (.str id)) (hfirst : ∀ x ∈ pre, matchesId id x = .ok false) :
    ∃ coords : JSVal,
      getProp r "coords" = .ok coords ∧
      _moveToPosition (some id) w = Outcome.done { w with app := { w.app with
        map := some { m with views := m.views ++ [(coords, Number.fin 12)] } } } ∧
      (_moveToPosition (some id) w).world.app.workouts = w.app.workouts := by
  have hm : matchesId id r = .ok true := by
    simp [matchesId, hid, strictEqString]
  have hf : findById id (pre ++ r :: post) = .ok r := by
    rw [findById_skip id pre _ hfirst]
    simp only [findById, hm]
  have hc : getProp r "coords" = .ok (lookupPropOf r "coords") := by
    cases r <;> simp_all [getProp, lookupPropOf]
  refine ⟨lookupPropOf r "coords", hc, ?_, ?_⟩
  · simp only [_moveToPosition, hstore, hf, hmap, hc, mapZoomLevel]
  · simp only [_moveToPosition, hstore, hf, hmap, hc, Outcome.done]

/-- C7, as amended: when the clicked id matches no record of the store, `_moveToPosition`
issues no `setView` request and leaves the whole world unchanged, and it throws a
TypeError. -/
theorem moveToPosition_not_found (w : World) (items : List JSVal) (id : String)
    (hstore : w.app.workouts = .arr items) (hnone : ∀ x ∈ items, matchesId id x = .ok false) :
    _moveToPosition (some id) w = Outcome.throw w JSError.TypeError ∧
    (_moveToPosition (some id) w).world = w ∧
    (_moveToPosition (some id) w).world.app.map = w.app.map := by
  have hf := findById_none id items hnone
  have h : _moveToPosition (some id) w = Outcome.throw w JSError.TypeError := by
    cases hm : w.app.map with
    | none => simp only [_moveToPosition, hstore, hf, hm]
    | some m => simp only [_moveToPosition, hstore, hf, hm, getProp]
  refine ⟨h, ?_, ?_⟩
  · rw [h]; rfl
  · rw [h]; rfl

/-- Scenario E for the amended C6: in the page holding the one record of Scenario A, a click
on its list item adds one `setView` request, to (10, 20) at zoom 12, after the initial view,
and leaves the store as it is. -/
theorem moveToPosition_pans_witness :
    oneRecordWorld.app.workouts = .arr ([] ++ scenarioA :: []) ∧
    getProp scenarioA "id" = .ok (.str "6168000000") ∧
    viewRequests oneRecordWorld =
      some [(.arr [.num (Number.fin 51), .num (Number.fin 7)], Number.fin 12)] ∧
    viewRequests (_moveToPosition (some "6168000000") oneRecordWorld).world =
      some [(.arr [.num (Number.fin 51), .num (Number.fin 7)], Number.fin 12),
            (.arr [.num (Number.fin 10), .num (Number.fin 20)], Number.fin 12)] ∧
    ∃ coords : JSVal,
      getProp scenarioA "coords" = .ok coords ∧
      (_moveToPosition (some "6168000000") oneRecordWorld).world.app.workouts =
        oneRecordWorld.app.workouts :=
  ⟨by decide!, by decide!, by decide!, by decide!,
    (moveToPosition_pans oneRecordWorld
      { views := [(.arr [.num (Number.fin 51), .num (Number.fin 7)], Number.fin 12)]
        markers := [{ coords := .arr [.num (Number.fin 10), .num (Number.fin 20)]
                      className := .str "running", running := true
                      description := .str "Running on April 14" }] }
      [] [] scenarioA "6168000000" (by decide!) (by decide!) (by decide!)
      (fun _ h => absurd h (List.not_mem_nil _))).imp (fun _ h => ⟨h.1, h.2.2⟩)⟩

/-- A counterexample to C6 as stated: after two submissions in the same millisecond both
records carry the id `6168000000`, and a click on the item of the second record, made at
(11, 21), pans to (10, 20), the coords of the first; and in the page started from storage
without a map, a click on a rendered item issues no request and throws a TypeError. -/
theorem moveToPosition_wrong_target :
    (storeItems duplicateWorld).map (fun r => getProp r "id") =
      [.ok (.str "6168000000"), .ok (.str "6168000000")] ∧
    (storeItems duplicateWorld).map (fun r => getProp r "coords") =
      [.ok (.arr [.num (Number.fin 10), .num (Number.fin 20)]),
       .ok (.arr [.num (Number.fin 11), .num (Number.fin 21)])] ∧
    viewRequests (_moveToPosition (some "6168000000") duplicateWorld).world =
      some [(.arr [.num (Number.fin 51), .num (Number.fin 7)], Number.fin 12),
            (.arr [.num (Number.fin 10), .num (Number.fin 20)], Number.fin 12)] ∧
    (storeItems listOnlyWorld).map (fun r => getProp r "id") =
      [.ok (.str "6168000000"), .ok (.str "6168000000")] ∧
    listOnlyWorld.containerWorkouts.length = 2 ∧
    (_moveToPosition (some "6168000000") listOnlyWorld).thrown = some JSError.TypeError ∧
    viewRequests (_moveToPosition (some "6168000000") listOnlyWorld).world = none := by
  decide!

/-- An instance of the amended C7: in the page holding the one record of Scenario A, a click
carrying the id `0000000000` throws a TypeError and leaves the world unchanged. -/
theorem moveToPosition_not_found_witness :
    oneRecordWorld.app.workouts = .arr [scenarioA] ∧
    matchesId "0000000000" scenarioA = .ok false ∧
    _moveToPosition (some "0000000000") oneRecordWorld =
      Outcome.throw oneRecordWorld JSError.TypeError :=
  ⟨by decide!, by decide!,
    (moveToPosition_not_found oneRecordWorld [scenarioA] "0000000000" (by decide!)
      (fun x h => by
        rw [List.mem_singleton] at h
        rw [h]
        decide!)).1⟩

/-- A counterexample to C7 as stated: in the page holding one record, with id `6168000000`,
a click carrying the id `0000000000` does not return normally but throws a TypeError. -/
theorem moveToPosition_not_found_raises :
    (storeItems oneRecordWorld).map (fun r => getProp r "id") = [.ok (.str "6168000000")] ∧
    (_moveToPosition (some "0000000000") oneRecordWorld).thrown = some JSError.TypeError := by
  decide!

end Mapty
